import Mathlib

/-!
Shallow embedding of the hackathon evaluation application:
the entity model (`Project`, `Judge`, `Criterion`, `Score`), the
localStorage-backed persistence gateway (`services/dbService.ts`), the
JSON-file backend routes (`backend/server.js`), the App-level
reconciliation handlers (`App.tsx` and its earlier revision), and the
identifier-minting schemes, together with theorems settling the spec
claims about them.
-/

namespace HackEval

/-- Entity `Project` (types.ts shape used throughout the app). -/
structure Project where
  id : String
  name : String
  description : String
  track : String
  trl : Nat
  links : List String
deriving DecidableEq, Repr

/-- Entity `Judge`: a judge holds a set of tracks. -/
structure Judge where
  id : String
  name : String
  tracks : List String
deriving DecidableEq, Repr

/-- Entity `Criterion`: weighted scoring criterion. -/
structure Criterion where
  id : String
  name : String
  weight : ℚ
deriving DecidableEq, Repr

/-- Entity `Score`: one judge's evaluation of one project.
`criteriaScores` is the mapping criterion-id → rating. -/
structure Score where
  id : String
  projectId : String
  judgeId : String
  criteriaScores : List (String × ℚ)
  juryTrl : ℚ
  notes : String
deriving DecidableEq, Repr

/-- The four-collection snapshot (`DBState` in services/dbService.ts). -/
structure DBState where
  projects : List Project
  judges : List Judge
  criteria : List Criterion
  scores : List Score
deriving DecidableEq, Repr

/-- `{ success: boolean }` result of delete endpoints. -/
structure DeleteResult where
  success : Bool
deriving DecidableEq, Repr

/-- `Omit<Project, 'id'>` as used by `createProjects`. -/
structure ProjectData where
  name : String
  description : String
  track : String
  trl : Nat
  links : List String
deriving DecidableEq, Repr

/-- `Omit<Judge, 'id'>` as used by `createJudge`. -/
structure JudgeData where
  name : String
  tracks : List String
deriving DecidableEq, Repr

/-! ### Identifier minting

The source mints identifiers from `Date.now()` with template literals.
We model the current time as an explicit `Nat` argument and keep the
exact string formats of each revision. -/

/-- `p_${Date.now()}_${i}` as minted by `POST /api/projects` in
backend/server.js. -/
def mintServerProjectId (now i : Nat) : String :=
  "p_" ++ Nat.repr now ++ "_" ++ Nat.repr i

/-- `j_${Date.now()}` as minted by `POST /api/judges` in backend/server.js. -/
def mintServerJudgeId (now : Nat) : String :=
  "j_" ++ Nat.repr now

/-- `c_${Date.now()}` as minted by `POST /api/criteria` in backend/server.js. -/
def mintServerCriterionId (now : Nat) : String :=
  "c_" ++ Nat.repr now

/-- `p_${Date.now()}_${i}` as minted by `createProjects` in
services/dbService.ts (the localStorage gateway). -/
def mintDbProjectId (now i : Nat) : String :=
  "p_" ++ Nat.repr now ++ "_" ++ Nat.repr i

/-- `p_local_${Date.now()}_${i}` as minted by the offline branch of
`addProjects` in the earlier App revision and by `createProjects` in the
earlier localStorage dbService revision. -/
def mintLocalProjectId (now i : Nat) : String :=
  "p_local_" ++ Nat.repr now ++ "_" ++ Nat.repr i

/-- `j_local_${Date.now()}` (offline branch of `addJudge`). -/
def mintLocalJudgeId (now : Nat) : String :=
  "j_local_" ++ Nat.repr now

/-- `c_local_${Date.now()}` (offline branch of `addCriterion`). -/
def mintLocalCriterionId (now : Nat) : String :=
  "c_local_" ++ Nat.repr now

/-- `s_${score.projectId}_${score.judgeId}_${Date.now()}` as minted by
`createOrUpdateScore` in services/dbService.ts when the score has no id. -/
def mintScoreId (projectId judgeId : String) (now : Nat) : String :=
  "s_" ++ projectId ++ "_" ++ judgeId ++ "_" ++ Nat.repr now

/-! ### Persistence gateway: services/dbService.ts (localStorage store)

Each operation reads the snapshot, transforms it, saves it and returns a
value; we embed it as a pure function `… → DBState → result × DBState`. -/

/-- `createProjects` of services/dbService.ts: mints `p_${now}_${i}` ids
and appends the created projects. -/
def createProjects (newProjectsData : List ProjectData) (now : Nat)
    (db : DBState) : List Project × DBState :=
  let createdProjects := newProjectsData.mapIdx (fun i p =>
    { id := mintDbProjectId now i, name := p.name,
      description := p.description, track := p.track,
      trl := p.trl, links := p.links : Project })
  (createdProjects, { db with projects := db.projects ++ createdProjects })

/-- `updateProject` of services/dbService.ts: replaces the project at the
index found by `findIndex`, if any; returns the input project either way. -/
def updateProject (updatedProject : Project) (db : DBState) :
    Project × DBState :=
  let index := db.projects.findIdx (fun p => p.id == updatedProject.id)
  if index < db.projects.length then
    (updatedProject,
      { db with projects := db.projects.set index updatedProject })
  else
    (updatedProject, db)

/-- `deleteProject` of services/dbService.ts: filters the project out and
cascades to the scores referencing it; always reports success. -/
def deleteProject (projectId : String) (db : DBState) :
    DeleteResult × DBState :=
  (⟨true⟩,
    { db with
      projects := db.projects.filter (fun p => p.id != projectId),
      scores := db.scores.filter (fun s => s.projectId != projectId) })

/-- `createJudge` of services/dbService.ts. -/
def createJudge (newJudgeData : JudgeData) (now : Nat) (db : DBState) :
    Judge × DBState :=
  let newJudge : Judge :=
    { id := mintServerJudgeId now, name := newJudgeData.name,
      tracks := newJudgeData.tracks }
  (newJudge, { db with judges := db.judges ++ [newJudge] })

/-- `deleteJudge` of services/dbService.ts: filters the judge out and
cascades to that judge's scores; always reports success. -/
def deleteJudge (judgeId : String) (db : DBState) :
    DeleteResult × DBState :=
  (⟨true⟩,
    { db with
      judges := db.judges.filter (fun j => j.id != judgeId),
      scores := db.scores.filter (fun s => s.judgeId != judgeId) })

/-- `deleteCriterion` of services/dbService.ts: filters the criterion out;
scores are deliberately left untouched. -/
def deleteCriterion (criterionId : String) (db : DBState) :
    DeleteResult × DBState :=
  (⟨true⟩,
    { db with criteria := db.criteria.filter (fun c => c.id != criterionId) })

/-- `createOrUpdateScore` of services/dbService.ts: replace the score at
the `findIndex` position when one with the same id exists; otherwise mint
an id if the incoming id is empty (falsy) and push. -/
def createOrUpdateScore (score : Score) (now : Nat) (db : DBState) :
    Score × DBState :=
  let index := db.scores.findIdx (fun s => s.id == score.id)
  if index < db.scores.length then
    (score, { db with scores := db.scores.set index score })
  else
    let score' :=
      if score.id = "" then
        { score with id := mintScoreId score.projectId score.judgeId now }
      else score
    (score', { db with scores := db.scores ++ [score'] })

/-! ### Backend routes: backend/server.js (JSON-file store) -/

/-- Outcome of a backend route: a 2xx payload or a 404 with a message. -/
inductive ApiResult (α : Type) where
  | ok (value : α)
  | notFound (message : String)
deriving DecidableEq, Repr

/-- `PUT /api/projects/:id` of backend/server.js: replace at the
`findIndex` position and echo the body, or 404 leaving the store as is. -/
def serverUpdateProject (id : String) (body : Project) (db : DBState) :
    ApiResult Project × DBState :=
  let index := db.projects.findIdx (fun p => p.id == id)
  if index < db.projects.length then
    (.ok body, { db with projects := db.projects.set index body })
  else
    (.notFound "Project not found", db)

/-- `DELETE /api/projects/:id` of backend/server.js: only when a project
with the id exists, filter it out and cascade-delete its scores;
otherwise 404 and the store is not written. -/
def serverDeleteProject (id : String) (db : DBState) :
    ApiResult DeleteResult × DBState :=
  if db.projects.any (fun p => p.id == id) then
    (.ok ⟨true⟩,
      { db with
        projects := db.projects.filter (fun p => p.id != id),
        scores := db.scores.filter (fun s => s.projectId != id) })
  else
    (.notFound "Project not found", db)

/-! ### Visibility (App.tsx `judgeData`) -/

/-- `projects.filter(p => currentJudge.tracks.includes(p.track))` from the
`judgeData` memo in App.tsx. -/
def judgeProjects (judge : Judge) (projects : List Project) : List Project :=
  projects.filter (fun p => judge.tracks.contains p.track)

/-- `scores.filter(s => s.judgeId === currentJudge.id)` from the same memo. -/
def judgeScores (judge : Judge) (scores : List Score) : List Score :=
  scores.filter (fun s => s.judgeId == judge.id)

/-! ### App-level reconciliation handlers (App.tsx)

`handleApiCall` runs the gateway call; on success it clears the
backend-error flag and hands the result to the caller, which then updates
the in-memory snapshot; on a thrown transport error it sets the flag and
returns null, and the caller performs no state update.  We model the
gateway's answer as an `Option` argument. -/

/-- In-memory state of the App component: the four collections plus the
`isBackendError` flag that drives the offline banner. -/
structure AppState where
  projects : List Project
  judges : List Judge
  criteria : List Criterion
  scores : List Score
  backendError : Bool
deriving DecidableEq, Repr

/-- `addProjects` of App.tsx through `handleApiCall`: `remote` is the
gateway's response (`none` = transport error).  On success append what
the gateway returned; on failure only the error flag changes. -/
def appAddProjects (newProjectsData : List ProjectData)
    (remote : Option (List Project)) (st : AppState) : AppState :=
  match remote with
  | some createdProjects =>
      { st with projects := st.projects ++ createdProjects,
                backendError := false }
  | none => { st with backendError := true }

/-- The `setScores` updater inside `addOrUpdateScore` of App.tsx:
replace the score at the `findIndex` position, else append. -/
def appUpsertScores (savedScore : Score) (scores : List Score) :
    List Score :=
  let index := scores.findIdx (fun s => s.id == savedScore.id)
  if index < scores.length then scores.set index savedScore
  else scores ++ [savedScore]

/-- `addOrUpdateScore` of App.tsx through `handleApiCall`. -/
def appAddOrUpdateScore (newScore : Score) (remote : Option Score)
    (st : AppState) : AppState :=
  match remote with
  | some savedScore =>
      { st with scores := appUpsertScores savedScore st.scores,
                backendError := false }
  | none => { st with backendError := true }

/-- User roles of the app. -/
inductive UserRole where
  | admin
  | judge
deriving DecidableEq, Repr

/-- The `user` state of App.tsx: a role and, for judges, the bound id. -/
structure UserSession where
  role : UserRole
  id : Option String
deriving DecidableEq, Repr

/-- `handleJuryLogin` of App.tsx: for `judgeId === 'new'` with data, the
judge is first created (`addJudgeResult` is the `addJudge` outcome, `none`
when the gateway call failed); on failure the handler returns without
setting a user.  The result is the session established, if any. -/
def handleJuryLogin (judgeId : String) (newJudgeData : Option JudgeData)
    (addJudgeResult : Option Judge) : Option UserSession :=
  if judgeId = "new" ∧ newJudgeData.isSome then
    match addJudgeResult with
    | some newJudge => some { role := .judge, id := some newJudge.id }
    | none => none
  else
    some { role := .judge, id := some judgeId }

/-! ### Scoring engine -/

/-- Modelled from the spec: the Scoring Engine's
`computeComposite(score, criteria)` — this component is not among the
source files under src/.  For each entry of the score's criterion-rating
mapping, look up the criterion by identifier, skipping entries with no
matching criterion; multiply each included rating by its criterion's
weight, sum, and normalize by the sum of the weights of only the included
criteria; if no criteria match, return the zero sentinel. -/
def computeComposite (score : Score) (criteria : List Criterion) : ℚ :=
  let included := score.criteriaScores.filterMap (fun entry =>
    match criteria.find? (fun c => c.id == entry.1) with
    | some c => some (entry.2, c.weight)
    | none => none)
  if included = [] then 0
  else
    (included.map (fun rw => rw.1 * rw.2)).sum /
      (included.map (fun rw => rw.2)).sum

/-! ### List helper lemmas (findIndex / set / first occurrence) -/

lemma findIdx_eq_length_of_none {α : Type} (p : α → Bool) :
    ∀ l : List α, (∀ a ∈ l, p a = false) → l.findIdx p = l.length := by
  intro l
  induction l with
  | nil => intro _; rfl
  | cons a l ih =>
      intro h
      have ha := h a (List.mem_cons_self a l)
      simp [List.findIdx_cons, ha, ih fun x hx => h x (List.mem_cons_of_mem a hx)]

lemma findIdx_append_cons {α : Type} (p : α → Bool) (a : α) :
    ∀ l1 l2 : List α, (∀ x ∈ l1, p x = false) → p a = true →
      (l1 ++ a :: l2).findIdx p = l1.length := by
  intro l1 l2
  induction l1 with
  | nil => intro _ ha; simp [List.findIdx_cons, ha]
  | cons b l1 ih =>
      intro h ha
      have hb := h b (List.mem_cons_self b l1)
      simp [List.findIdx_cons, hb, ih (fun x hx => h x (List.mem_cons_of_mem b hx)) ha]

lemma set_append_cons {α : Type} (a v : α) :
    ∀ (l1 l2 : List α), (l1 ++ a :: l2).set l1.length v = l1 ++ v :: l2 := by
  intro l1 l2
  induction l1 with
  | nil => rfl
  | cons b l1 ih => simp [List.set, ih]

lemma exists_first_split {α : Type} (p : α → Bool) :
    ∀ l : List α, (∃ a ∈ l, p a = true) →
      ∃ l1 a l2, l = l1 ++ a :: l2 ∧ p a = true ∧ ∀ x ∈ l1, p x = false := by
  intro l
  induction l with
  | nil => rintro ⟨a, ha, _⟩; exact absurd ha (List.not_mem_nil a)
  | cons b l ih =>
      intro h
      by_cases hb : p b = true
      · exact ⟨[], b, l, rfl, hb, by simp⟩
      · obtain ⟨a, ha, hpa⟩ := h
        rcases List.mem_cons.mp ha with rfl | ha'
        · exact absurd hpa hb
        · obtain ⟨l1, a', l2, hl, hpa', hl1⟩ := ih ⟨a, ha', hpa⟩
          refine ⟨b :: l1, a', l2, by simp [hl], hpa', ?_⟩
          intro x hx
          rcases List.mem_cons.mp hx with rfl | hx'
          · exact eq_false_of_ne_true hb
          · exact hl1 x hx'

lemma filter_eq_nil_of_none {α : Type} (p : α → Bool) :
    ∀ l : List α, (∀ a ∈ l, p a = false) → l.filter p = [] := by
  intro l
  induction l with
  | nil => intro _; rfl
  | cons a l ih =>
      intro h
      simp [List.filter, h a (List.mem_cons_self a l),
        ih fun x hx => h x (List.mem_cons_of_mem a hx)]

lemma filter_eq_self_of_all {α : Type} (p : α → Bool) :
    ∀ l : List α, (∀ a ∈ l, p a = true) → l.filter p = l := by
  intro l
  induction l with
  | nil => intro _; rfl
  | cons a l ih =>
      intro h
      simp [List.filter, h a (List.mem_cons_self a l),
        ih fun x hx => h x (List.mem_cons_of_mem a hx)]

/-! ### Behavior of `createOrUpdateScore` on the scores list -/

lemma createOrUpdateScore_not_found (sc : Score) (now : Nat) (db : DBState)
    (h : ∀ s ∈ db.scores, s.id ≠ sc.id) (hid : sc.id ≠ "") :
    (createOrUpdateScore sc now db).2.scores = db.scores ++ [sc] := by
  have hfind : db.scores.findIdx (fun s => s.id == sc.id) = db.scores.length := by
    apply findIdx_eq_length_of_none
    intro s hs
    simp [h s hs]
  simp [createOrUpdateScore, hfind, hid]

lemma createOrUpdateScore_found (sc : Score) (now : Nat) (db : DBState)
    (l1 l2 : List Score) (a : Score) (hdb : db.scores = l1 ++ a :: l2)
    (ha : a.id = sc.id) (hl1 : ∀ x ∈ l1, x.id ≠ sc.id) :
    (createOrUpdateScore sc now db).2.scores = l1 ++ sc :: l2 := by
  have hfind : db.scores.findIdx (fun s => s.id == sc.id) = l1.length := by
    rw [hdb]
    apply findIdx_append_cons
    · intro x hx; simp [hl1 x hx]
    · simp [ha]
  have hlen : l1.length < db.scores.length := by
    rw [hdb]; simp
  simp only [createOrUpdateScore]
  rw [hfind, if_pos hlen]
  simp only
  rw [hdb, set_append_cons]

/-! ### Decimal representations consist of digits

`Date.now()` renders as a decimal digit string; we prove that `Nat.repr`
produces only digit characters and is nonempty, which drives the
identifier-namespace disjointness results. -/

lemma digitChar_isDigit {m : Nat} (h : m < 10) :
    (Nat.digitChar m).isDigit = true := by
  interval_cases m <;> rfl

lemma toDigitsCore_digits :
    ∀ (fuel n : Nat) (ds : List Char), (∀ c ∈ ds, c.isDigit = true) →
      ∀ c ∈ Nat.toDigitsCore 10 fuel n ds, c.isDigit = true := by
  intro fuel
  induction fuel with
  | zero => intro n ds h c hc; exact h c hc
  | succ fuel ih =>
      intro n ds h c hc
      simp only [Nat.toDigitsCore] at hc
      have hds : ∀ x ∈ Nat.digitChar (n % 10) :: ds, x.isDigit = true := by
        intro x hx
        rcases List.mem_cons.mp hx with rfl | hx'
        · exact digitChar_isDigit (Nat.mod_lt _ (by decide))
        · exact h x hx'
      by_cases hdiv : n / 10 = 0
      · rw [if_pos hdiv] at hc
        exact hds c hc
      · rw [if_neg hdiv] at hc
        exact ih (n / 10) (Nat.digitChar (n % 10) :: ds) hds c hc

lemma toDigitsCore_length_ge (b : Nat) :
    ∀ (fuel n : Nat) (ds : List Char),
      ds.length ≤ (Nat.toDigitsCore b fuel n ds).length := by
  intro fuel
  induction fuel with
  | zero => intro n ds; simp [Nat.toDigitsCore]
  | succ fuel ih =>
      intro n ds
      simp only [Nat.toDigitsCore]
      by_cases hdiv : n / b = 0
      · rw [if_pos hdiv]; simp
      · rw [if_neg hdiv]
        calc ds.length ≤ (Nat.digitChar (n % b) :: ds).length := by simp
          _ ≤ _ := ih (n / b) (Nat.digitChar (n % b) :: ds)

lemma repr_head_digit (n : Nat) :
    ∃ c cs, (Nat.repr n).data = c :: cs ∧ c.isDigit = true := by
  have hdig : ∀ c ∈ Nat.toDigits 10 n, c.isDigit = true :=
    toDigitsCore_digits (n + 1) n [] (by intro c hc; cases hc)
  have hne : Nat.toDigits 10 n ≠ [] := by
    show Nat.toDigitsCore 10 (n + 1) n [] ≠ []
    simp only [Nat.toDigitsCore]
    by_cases hdiv : n / 10 = 0
    · rw [if_pos hdiv]; simp
    · rw [if_neg hdiv]
      intro hcontra
      have hlen := toDigitsCore_length_ge 10 n (n / 10)
        [Nat.digitChar (n % 10)]
      rw [hcontra] at hlen
      simp at hlen
  obtain ⟨c, cs, hcons⟩ := List.exists_cons_of_ne_nil hne
  exact ⟨c, cs, hcons ▸ rfl, hdig c (by rw [hcons]; exact List.mem_cons_self c cs)⟩

/-! ### Concrete fixtures used by examples, witnesses and counterexamples -/

def exCriteria : List Criterion :=
  [{ id := "c1", name := "Innovation", weight := 2 },
   { id := "c2", name := "Impact", weight := 1 }]

def exScore1 : Score :=
  { id := "s1", projectId := "p1", judgeId := "j1",
    criteriaScores := [("c1", 8), ("c2", 5)], juryTrl := 5, notes := "" }

def exScore2 : Score :=
  { id := "s2", projectId := "p1", judgeId := "j2",
    criteriaScores := [("c1", 8), ("c3", 9)], juryTrl := 5, notes := "" }

def exScoreUnmatched : Score :=
  { id := "s3", projectId := "p1", judgeId := "j1",
    criteriaScores := [("zz", 3)], juryTrl := 5, notes := "" }

def projAI : Project :=
  { id := "p1", name := "NeuroSolve", description := "", track := "AI",
    trl := 4, links := [] }

def projRob : Project :=
  { id := "p2", name := "MechArm", description := "", track := "Robotics",
    trl := 5, links := [] }

def judgeAI : Judge := { id := "j1", name := "Ada", tracks := ["AI"] }

def judgeNoTracks : Judge := { id := "j2", name := "Bea", tracks := [] }

/-! ### C1 -/

/-- C1: `computeComposite` is the weighted average over the criteria
matched by identifier, normalized by the sum of only the matched
criteria's weights, with unmatched entries skipped silently and an
explicit zero sentinel when nothing matches; on the spec's examples it
yields 7 and 8. -/
theorem computeComposite_spec :
    computeComposite exScore1 exCriteria = 7 ∧
    computeComposite exScore2 exCriteria = 8 ∧
    ∀ (sc : Score) (criteria : List Criterion),
      (∀ entry ∈ sc.criteriaScores,
        criteria.find? (fun c => c.id == entry.1) = none) →
      computeComposite sc criteria = 0 := by
  refine ⟨?_, ?_, ?_⟩
  · norm_num [computeComposite, exScore1, exCriteria, List.filterMap,
      List.find?, show ("c1" == "c2") = false from rfl,
      show ("c1" == "c1") = true from rfl,
      show ("c2" == "c2") = true from rfl, List.cons_ne_nil]
  · norm_num [computeComposite, exScore2, exCriteria, List.filterMap,
      List.find?, show ("c1" == "c3") = false from rfl,
      show ("c1" == "c1") = true from rfl,
      show ("c2" == "c3") = false from rfl, List.cons_ne_nil]
  intro sc criteria h
  unfold computeComposite
  have hnil : sc.criteriaScores.filterMap (fun entry =>
      match criteria.find? (fun c => c.id == entry.1) with
      | some c => some (entry.2, c.weight)
      | none => none) = [] := by
    rw [List.filterMap_eq_nil_iff]
    intro entry he
    rw [h entry he]
  simp [hnil]

/-- Closed instance of C1's only-hypothesis part: a score referencing no
existing criterion gets the zero sentinel. -/
theorem computeComposite_spec_witness :
    computeComposite exScoreUnmatched exCriteria = 0 :=
  computeComposite_spec.2.2 exScoreUnmatched exCriteria (by decide)

/-! ### C2 -/

/-- C2: the visibility computation in App.tsx's `judgeData` returns
exactly the subsequence of the project list whose track belongs to the
judge's track set, in the original order, and an empty track set yields
an empty result. -/
theorem judgeProjects_spec (judge : Judge) (projects : List Project) :
    judgeProjects judge projects
      = projects.filter (fun p => decide (p.track ∈ judge.tracks)) ∧
    (judgeProjects judge projects).Sublist projects ∧
    (judge.tracks = [] → judgeProjects judge projects = []) := by
  refine ⟨?_, List.filter_sublist _, ?_⟩
  · unfold judgeProjects
    congr 1
    funext p
    simp [List.contains, List.elem_iff]
  · intro h
    simp [judgeProjects, h]

/-- Closed instance of C2: a judge with no tracks sees nothing, and the
track filter picks exactly the matching project. -/
theorem judgeProjects_spec_witness :
    judgeProjects judgeNoTracks [projAI, projRob] = [] ∧
    judgeProjects judgeAI [projAI, projRob]
      = [projAI, projRob].filter (fun p => decide (p.track ∈ judgeAI.tracks)) :=
  ⟨(judgeProjects_spec judgeNoTracks [projAI, projRob]).2.2 rfl,
    (judgeProjects_spec judgeAI [projAI, projRob]).1⟩

/-! ### C3 -/

def scoreP1J1 : Score :=
  { id := "sA", projectId := "p1", judgeId := "j1",
    criteriaScores := [("c1", 8)], juryTrl := 4, notes := "" }

def scoreP2J1 : Score :=
  { id := "sB", projectId := "p2", judgeId := "j1",
    criteriaScores := [("c1", 6)], juryTrl := 3, notes := "" }

def scoreP2J2 : Score :=
  { id := "sC", projectId := "p2", judgeId := "j2",
    criteriaScores := [("c2", 9)], juryTrl := 6, notes := "" }

def exDb : DBState :=
  { projects := [projAI, projRob], judges := [judgeAI, judgeNoTracks],
    criteria := exCriteria, scores := [scoreP1J1, scoreP2J1, scoreP2J2] }

/-- C3: `deleteProject` removes the project with the given id and exactly
the scores referencing it, leaving judges and criteria untouched;
`deleteJudge` removes the judge and exactly that judge's scores, leaving
projects and criteria untouched. -/
theorem delete_cascade_spec (db : DBState) (projectId judgeId : String) :
    (∀ p, p ∈ (deleteProject projectId db).2.projects ↔
      p ∈ db.projects ∧ p.id ≠ projectId) ∧
    (∀ s, s ∈ (deleteProject projectId db).2.scores ↔
      s ∈ db.scores ∧ s.projectId ≠ projectId) ∧
    (deleteProject projectId db).2.judges = db.judges ∧
    (deleteProject projectId db).2.criteria = db.criteria ∧
    (∀ j, j ∈ (deleteJudge judgeId db).2.judges ↔
      j ∈ db.judges ∧ j.id ≠ judgeId) ∧
    (∀ s, s ∈ (deleteJudge judgeId db).2.scores ↔
      s ∈ db.scores ∧ s.judgeId ≠ judgeId) ∧
    (deleteJudge judgeId db).2.projects = db.projects ∧
    (deleteJudge judgeId db).2.criteria = db.criteria := by
  simp [deleteProject, deleteJudge, List.mem_filter]

/-- Closed instance of C3: deleting project "p2" from the example store
keeps the score on "p1" and drops a score on "p2". -/
theorem delete_cascade_spec_witness :
    scoreP1J1 ∈ (deleteProject "p2" exDb).2.scores ∧
    scoreP2J1 ∈ exDb.scores ∧ scoreP2J1.projectId = "p2" ∧
    scoreP2J2 ∉ (deleteJudge "j2" exDb).2.scores :=
  ⟨((delete_cascade_spec exDb "p2" "j2").2.1 scoreP1J1).mpr
      ⟨by decide, by decide⟩,
    by decide, by decide,
    fun h => absurd (((delete_cascade_spec exDb "p2" "j2").2.2.2.2.2.1
      scoreP2J2).mp h).2 (by decide)⟩

/-! ### C9 -/

/-- C9: `deleteCriterion` removes only the criterion with the given id;
the scores collection — and the projects and judges collections — are
left entirely unchanged, so no recorded Score loses entries. -/
theorem deleteCriterion_frame (db : DBState) (criterionId : String) :
    (deleteCriterion criterionId db).2.scores = db.scores ∧
    (deleteCriterion criterionId db).2.projects = db.projects ∧
    (deleteCriterion criterionId db).2.judges = db.judges ∧
    (∀ c, c ∈ (deleteCriterion criterionId db).2.criteria ↔
      c ∈ db.criteria ∧ c.id ≠ criterionId) ∧
    (deleteCriterion criterionId db).1.success = true := by
  simp [deleteCriterion, List.mem_filter]

/-- Closed instance of C9: deleting criterion "c1" from the example store
changes no score. -/
theorem deleteCriterion_frame_witness :
    (deleteCriterion "c1" exDb).2.scores = exDb.scores :=
  (deleteCriterion_frame exDb "c1").1

/-! ### C10 -/

lemma createOrUpdateScore_not_found_general (sc : Score) (now : Nat)
    (db : DBState) (h : ∀ s ∈ db.scores, s.id ≠ sc.id) :
    (createOrUpdateScore sc now db).2.scores
      = db.scores ++ [if sc.id = "" then
          { sc with id := mintScoreId sc.projectId sc.judgeId now }
        else sc] := by
  have hfind : db.scores.findIdx (fun s => s.id == sc.id)
      = db.scores.length := by
    apply findIdx_eq_length_of_none
    intro s hs
    simp [h s hs]
  simp only [createOrUpdateScore, hfind, lt_irrefl, if_false]

/-- C10: `createOrUpdateScore` leaves projects, judges and criteria
unchanged, and on the scores list it either replaces the first score
whose id matches the input's id in place — all other scores staying put —
or, when no stored score matches, appends a single new score at the end. -/
theorem createOrUpdateScore_frame (db : DBState) (score : Score)
    (now : Nat) :
    (createOrUpdateScore score now db).2.projects = db.projects ∧
    (createOrUpdateScore score now db).2.judges = db.judges ∧
    (createOrUpdateScore score now db).2.criteria = db.criteria ∧
    ((∃ l1 a l2, db.scores = l1 ++ a :: l2 ∧ a.id = score.id ∧
        (∀ x ∈ l1, x.id ≠ score.id) ∧
        (createOrUpdateScore score now db).2.scores = l1 ++ score :: l2) ∨
      ((∀ x ∈ db.scores, x.id ≠ score.id) ∧
        ∃ s', (createOrUpdateScore score now db).2.scores
          = db.scores ++ [s'])) := by
  refine ⟨?_, ?_, ?_, ?_⟩
  · simp only [createOrUpdateScore]; split <;> rfl
  · simp only [createOrUpdateScore]; split <;> rfl
  · simp only [createOrUpdateScore]; split <;> rfl
  by_cases hex : ∃ a ∈ db.scores, (a.id == score.id) = true
  · left
    obtain ⟨l1, a, l2, hdb, ha, hl1⟩ :=
      exists_first_split (fun s => s.id == score.id) db.scores hex
    refine ⟨l1, a, l2, hdb, by simpa using ha, ?_, ?_⟩
    · intro x hx
      simpa using hl1 x hx
    · exact createOrUpdateScore_found score now db l1 l2 a hdb
        (by simpa using ha) (fun x hx => by simpa using hl1 x hx)
  · right
    have hall : ∀ x ∈ db.scores, x.id ≠ score.id := by
      intro x hx hcontra
      exact hex ⟨x, hx, by simp [hcontra]⟩
    exact ⟨hall, _, createOrUpdateScore_not_found_general score now db hall⟩

/-- Closed instance of C10: the upsert leaves the example store's other
collections unchanged. -/
theorem createOrUpdateScore_frame_witness :
    (createOrUpdateScore scoreP1J1 0 exDb).2.criteria = exDb.criteria ∧
    (createOrUpdateScore scoreP1J1 0 exDb).2.projects = exDb.projects :=
  ⟨(createOrUpdateScore_frame exDb scoreP1J1 0).2.2.1,
    (createOrUpdateScore_frame exDb scoreP1J1 0).1⟩

/-! ### C4 -/

def c4s1 : Score :=
  { id := "x", projectId := "p1", judgeId := "j1",
    criteriaScores := [("c1", 5)], juryTrl := 1, notes := "" }

def c4s2 : Score :=
  { id := "x", projectId := "p1", judgeId := "j1",
    criteriaScores := [("c1", 6)], juryTrl := 1, notes := "second" }

def dupScoreA : Score :=
  { id := "x", projectId := "p1", judgeId := "j1",
    criteriaScores := [("c1", 3)], juryTrl := 1, notes := "" }

def dupScoreB : Score :=
  { id := "x", projectId := "p1", judgeId := "j2",
    criteriaScores := [("c1", 4)], juryTrl := 1, notes := "" }

def dupDb : DBState :=
  { projects := [], judges := [], criteria := [],
    scores := [dupScoreA, dupScoreB] }

/-- C4 counterexample: on a store already holding two scores with
identifier "x", two `createOrUpdateScore` calls with that identifier
leave two stored scores carrying it, not exactly one. -/
theorem createOrUpdateScore_dup_counterexample :
    c4s1.id = c4s2.id ∧ c4s1.criteriaScores ≠ c4s2.criteriaScores ∧
    ((createOrUpdateScore c4s2 1
        (createOrUpdateScore c4s1 0 dupDb).2).2.scores.countP
      (fun s => s.id == "x")) = 2 := by
  refine ⟨rfl, by decide, ?_⟩
  rfl

/-- C4 amended: provided the shared identifier is nonempty and the store
initially holds at most one score with it, calling `createOrUpdateScore`
with the first and then the second score leaves exactly one stored score
with that identifier, namely the second score. -/
theorem createOrUpdateScore_upsert_spec (db : DBState) (s1 s2 : Score)
    (now1 now2 : Nat) (hid : s1.id = s2.id) (hne : s2.id ≠ "")
    (huniq : db.scores.countP (fun s => s.id == s2.id) ≤ 1) :
    ((createOrUpdateScore s2 now2
        (createOrUpdateScore s1 now1 db).2).2.scores.filter
      (fun s => s.id == s2.id)) = [s2] := by
  by_cases hex : ∃ a ∈ db.scores, (a.id == s2.id) = true
  · obtain ⟨l1, a, l2, hdb, ha, hl1⟩ :=
      exists_first_split (fun s => s.id == s2.id) db.scores hex
    have ha' : a.id = s2.id := by simpa using ha
    have hl1' : ∀ x ∈ l1, x.id ≠ s1.id := by
      intro x hx
      rw [hid]
      simpa using hl1 x hx
    have hl2' : ∀ x ∈ l2, (x.id == s2.id) = false := by
      have hcount : db.scores.countP (fun s => s.id == s2.id)
          = l1.countP (fun s => s.id == s2.id) + 1
            + l2.countP (fun s => s.id == s2.id) := by
        rw [hdb]
        simp [List.countP_append, List.countP_cons, ha]
        omega
      intro x hx
      by_contra hxne
      have hxmem : l2.countP (fun s => s.id == s2.id) ≥ 1 := by
        have : x ∈ l2 ∧ (fun s : Score => s.id == s2.id) x = true :=
          ⟨hx, by simpa using hxne⟩
        calc 1 = [x].countP (fun s => s.id == s2.id) := by
              simp [List.countP_cons, this.2]
          _ ≤ l2.countP (fun s => s.id == s2.id) :=
              List.Sublist.countP_le _ (List.singleton_sublist.mpr hx)
      omega
    have h1 : (createOrUpdateScore s1 now1 db).2.scores
        = l1 ++ s1 :: l2 :=
      createOrUpdateScore_found s1 now1 db l1 l2 a hdb
        (hid ▸ ha') hl1'
    have h2 : (createOrUpdateScore s2 now2
        (createOrUpdateScore s1 now1 db).2).2.scores = l1 ++ s2 :: l2 := by
      apply createOrUpdateScore_found s2 now2 _ l1 l2 s1 h1 hid
      intro x hx
      rw [← hid]
      exact hl1' x hx
    rw [h2, List.filter_append, List.filter_cons,
      filter_eq_nil_of_none _ l1 (fun x hx => by simpa using hl1 x hx),
      filter_eq_nil_of_none _ l2 hl2']
    simp
  · have hall1 : ∀ x ∈ db.scores, x.id ≠ s1.id := by
      intro x hx hcontra
      exact hex ⟨x, hx, by simp [← hid, hcontra]⟩
    have h1 : (createOrUpdateScore s1 now1 db).2.scores
        = db.scores ++ [s1] :=
      createOrUpdateScore_not_found s1 now1 db hall1 (hid ▸ hne)
    have h2 : (createOrUpdateScore s2 now2
        (createOrUpdateScore s1 now1 db).2).2.scores
        = db.scores ++ s2 :: [] := by
      apply createOrUpdateScore_found s2 now2 _ db.scores [] s1
        (by simpa using h1) hid
      intro x hx
      rw [← hid]
      exact hall1 x hx
    rw [h2, List.filter_append, List.filter_cons,
      filter_eq_nil_of_none _ db.scores
        (fun x hx => by simp [hall1 x hx, hid ▸ hall1 x hx])]
    simp

/-- Closed instance of C4's amended claim on a well-formed store: the
example store holds one score with id "sA"; upserting twice with that id
leaves exactly the second version. -/
theorem createOrUpdateScore_upsert_spec_witness :
    ((createOrUpdateScore
        { scoreP1J1 with notes := "rev2" } 1
        (createOrUpdateScore { scoreP1J1 with notes := "rev1" } 0
          exDb).2).2.scores.filter
      (fun s => s.id == "sA")) = [{ scoreP1J1 with notes := "rev2" }] :=
  createOrUpdateScore_upsert_spec exDb
    { scoreP1J1 with notes := "rev1" } { scoreP1J1 with notes := "rev2" }
    0 1 rfl (by decide) (by decide)

/-! ### C5 -/

def emptyAppState : AppState :=
  { projects := [], judges := [], criteria := [], scores := [],
    backendError := false }

def newProjectData : ProjectData :=
  { name := "New Project", description := "Desc", track := "AI",
    trl := 3, links := [] }

/-- C5 counterexample: when the gateway call for an attempted
`addProjects` mutation fails in the Online state, the offline notice is
raised but the attempted mutation is NOT applied to the local snapshot —
the projects list stays empty, so the user's edit is lost. -/
theorem appAddProjects_failure_counterexample :
    (appAddProjects [newProjectData] none emptyAppState).backendError
        = true ∧
    (appAddProjects [newProjectData] none emptyAppState).projects = [] := by
  constructor <;> rfl

/-- C5 amended: in the Online state a mutation updates the snapshot only
when the gateway call succeeds (clearing the error notice); on a
transport failure the error notice is raised and the snapshot is left
entirely unchanged — the attempted mutation is dropped, not applied
locally. -/
theorem appMutation_write_through (st : AppState)
    (newProjectsData : List ProjectData) (createdProjects : List Project)
    (newScore savedScore : Score) :
    (appAddProjects newProjectsData (some createdProjects) st).projects
        = st.projects ++ createdProjects ∧
    (appAddProjects newProjectsData (some createdProjects) st).backendError
        = false ∧
    (appAddProjects newProjectsData none st).backendError = true ∧
    (appAddProjects newProjectsData none st).projects = st.projects ∧
    (appAddProjects newProjectsData none st).scores = st.scores ∧
    (appAddProjects newProjectsData none st).judges = st.judges ∧
    (appAddProjects newProjectsData none st).criteria = st.criteria ∧
    (appAddOrUpdateScore newScore (some savedScore) st).scores
        = appUpsertScores savedScore st.scores ∧
    (appAddOrUpdateScore newScore (some savedScore) st).backendError
        = false ∧
    (appAddOrUpdateScore newScore none st).backendError = true ∧
    (appAddOrUpdateScore newScore none st).scores = st.scores := by
  simp [appAddProjects, appAddOrUpdateScore]

/-- Closed instance of C5's amended claim: a successful create appends
the gateway's result, a failed one raises the notice. -/
theorem appMutation_write_through_witness :
    (appAddProjects [newProjectData] (some [projAI]) emptyAppState).projects
        = emptyAppState.projects ++ [projAI] ∧
    (appAddProjects [newProjectData] none emptyAppState).backendError
        = true :=
  ⟨(appMutation_write_through emptyAppState [newProjectData] [projAI]
      c4s1 c4s1).1,
    (appMutation_write_through emptyAppState [newProjectData] [projAI]
      c4s1 c4s1).2.2.1⟩

/-! ### C6 -/

def projMissing : Project :=
  { id := "p_missing", name := "Ghost", description := "",
    track := "AI", trl := 1, links := [] }

/-- C6 counterexample: the localStorage gateway's `deleteProject` on an
identifier absent from the store still returns `{ success: true }` — the
operation is not surfaced to the caller as a failure. -/
theorem deleteProject_notfound_counterexample :
    (exDb.projects.all (fun p => p.id != "p_missing")) = true ∧
    (deleteProject "p_missing" exDb).1.success = true := by
  constructor <;> rfl

/-- C6 amended: for update/delete on an identifier absent from the store,
the backend routes surface a 404 failure and leave the store unchanged;
the localStorage gateway also leaves the snapshot's projects unchanged,
but surfaces no failure — its update echoes the entity and its delete
reports success. -/
theorem notfound_spec (db : DBState) (id : String) (body : Project)
    (habs : ∀ p ∈ db.projects, p.id ≠ id) (hbody : body.id = id) :
    serverUpdateProject id body db = (.notFound "Project not found", db) ∧
    serverDeleteProject id db = (.notFound "Project not found", db) ∧
    updateProject body db = (body, db) ∧
    (deleteProject id db).1.success = true ∧
    (deleteProject id db).2.projects = db.projects := by
  have hfind : db.projects.findIdx (fun p => p.id == id)
      = db.projects.length := by
    apply findIdx_eq_length_of_none
    intro p hp
    simp [habs p hp]
  have hany : db.projects.any (fun p => p.id == id) = false := by
    rw [List.any_eq_false]
    intro p hp
    simp [habs p hp]
  refine ⟨?_, ?_, ?_, rfl, ?_⟩
  · simp [serverUpdateProject, hfind]
  · simp [serverDeleteProject, hany]
  · have hfind' : db.projects.findIdx (fun p => p.id == body.id)
        = db.projects.length := by rw [hbody]; exact hfind
    simp [updateProject, hfind']
  · show db.projects.filter (fun p => p.id != id) = db.projects
    apply filter_eq_self_of_all
    intro p hp
    simp [habs p hp]

/-- Closed instance of C6's amended claim on the example store and the
absent identifier "p_missing". -/
theorem notfound_spec_witness :
    serverDeleteProject "p_missing" exDb
        = (.notFound "Project not found", exDb) ∧
    updateProject projMissing exDb = (projMissing, exDb) :=
  ⟨(notfound_spec exDb "p_missing" projMissing (by decide) rfl).2.1,
    (notfound_spec exDb "p_missing" projMissing (by decide) rfl).2.2.1⟩

/-! ### C7 -/

/-- C7 counterexample: the localStorage gateway (services/dbService.ts)
mints project identifiers in exactly the same format as the remote
backend, so a locally minted identifier can collide with a server-minted
one outright. -/
theorem mint_collision_counterexample :
    mintDbProjectId 0 0 = mintServerProjectId 0 0 ∧
    mintDbProjectId 0 0 = "p_0_0" := by
  constructor <;> rfl

/-- C7 amended: the identifiers minted by the explicit offline branches
(`p_local_…`, `j_local_…`, `c_local_…`) are disjoint from every
identifier the backend mints (`p_…`, `j_…`, `c_…` followed by a decimal
timestamp), but the localStorage gateway of services/dbService.ts mints
project identifiers in exactly the backend's namespace. -/
theorem local_mint_disjoint (t i u j : Nat) :
    mintLocalProjectId t i ≠ mintServerProjectId u j ∧
    mintLocalJudgeId t ≠ mintServerJudgeId u ∧
    mintLocalCriterionId t ≠ mintServerCriterionId u ∧
    mintDbProjectId t i = mintServerProjectId t i := by
  obtain ⟨c, cs, hc, hdig⟩ := repr_head_digit u
  refine ⟨?_, ?_, ?_, rfl⟩
  · intro h
    have hd := congrArg String.data h
    simp only [mintLocalProjectId, mintServerProjectId,
      String.data_append, hc] at hd
    have h2 := congrArg (fun l => l.get? 2) hd
    simp [List.get?] at h2
    rw [← h2] at hdig
    exact absurd hdig (by decide)
  · intro h
    have hd := congrArg String.data h
    simp only [mintLocalJudgeId, mintServerJudgeId,
      String.data_append, hc] at hd
    have h2 := congrArg (fun l => l.get? 2) hd
    simp [List.get?] at h2
    rw [← h2] at hdig
    exact absurd hdig (by decide)
  · intro h
    have hd := congrArg String.data h
    simp only [mintLocalCriterionId, mintServerCriterionId,
      String.data_append, hc] at hd
    have h2 := congrArg (fun l => l.get? 2) hd
    simp [List.get?] at h2
    rw [← h2] at hdig
    exact absurd hdig (by decide)

/-- Closed instance of C7's amended claim at concrete timestamps. -/
theorem local_mint_disjoint_witness :
    mintLocalProjectId 0 0 ≠ mintServerProjectId 0 0 :=
  (local_mint_disjoint 0 0 0 0).1

/-! ### C8 -/

def newJudgeData : JudgeData := { name := "Cleo", tracks := ["AI"] }

/-- C8: in `handleJuryLogin`, registering as a new judge binds the
session to the newly created judge's identifier only when `addJudge`
succeeded; when judge creation fails (the gateway call returned null),
the handler returns without establishing any session.  Selecting an
existing judge binds the session to that identifier directly. -/
theorem handleJuryLogin_spec (jd : JudgeData) (newJudge : Judge)
    (judgeId : String) :
    handleJuryLogin "new" (some jd) none = none ∧
    handleJuryLogin "new" (some jd) (some newJudge)
      = some { role := .judge, id := some newJudge.id } ∧
    (judgeId ≠ "new" → ∀ r, handleJuryLogin judgeId (some jd) r
      = some { role := .judge, id := some judgeId }) := by
  refine ⟨by simp [handleJuryLogin], by simp [handleJuryLogin], ?_⟩
  intro h r
  simp [handleJuryLogin, h]

/-- Closed instance of C8: logging in as existing judge "j1" binds the
session to "j1"; failed creation of a new judge yields no session. -/
theorem handleJuryLogin_spec_witness :
    handleJuryLogin "j1" (some newJudgeData) none
        = some { role := .judge, id := some "j1" } ∧
    handleJuryLogin "new" (some newJudgeData) none = none :=
  ⟨(handleJuryLogin_spec newJudgeData judgeAI "j1").2.2 (by decide) none,
    (handleJuryLogin_spec newJudgeData judgeAI "j1").1⟩

end HackEval
